import Mathlib

/-!
Verification of the shared-memory video-frame transport
(`components/sophgo/video`): a shallow embedding of `video_shm.c` /
`video_shm.h` and proofs about the producer/consumer ring-buffer protocol.

Modelling conventions:
* Machine integers (`uint32_t`, `uint64_t`) are `Nat` with explicit
  reduction modulo `2^32` (`u32add` / `u32sub`) exactly where the C code
  can overflow or wrap.
* Pointer validity of the arguments (`!producer || !producer->shm || !data
  || !meta`) is an explicit `Bool` input `argsValid`; the pointed-to shared
  region is carried inside the handle structure.
* `sem_trywait` on the write-gate is an explicit `Bool` input
  `gateAcquired` (`true` iff the non-blocking acquire succeeded), and the
  monotonic clock `get_timestamp_ms()` is an explicit `Nat` input `now_ms`.
* The payload array of a slot is a `List Nat` of bytes; `memcpy(dst, src,
  n)` becomes `memcpyBytes dst src n`.  The *length* argument that the
  code passes to `memcpy` on the consumer side is reported separately
  (`copyLen`) so that out-of-range copies remain observable.
* Resource-releasing system calls made by the destroy functions are
  reified as a list of `ResOp` events; the pointer-level fields of the
  handles (`shm_fd`, the `mmap` result, the `sem_open` results) are
  modelled as integers, with `NULL = 0`, `MAP_FAILED = -1` and
  `SEM_FAILED = 0` as in the target libc.
-/

namespace VideoShm

/-! ## Constants from `video_shm.h` -/

def VIDEO_SHM_RING_SIZE : Nat := 30

def VIDEO_SHM_MAX_FRAME_SIZE : Nat := 512 * 1024

def VIDEO_SHM_MAGIC : Nat := 0x56494445

def VIDEO_SHM_VERSION : Nat := 1

/-- Modulus of a 32-bit unsigned integer. -/
def U32 : Nat := 2 ^ 32

/-- Addition of `uint32_t` values (wraps at `2^32`). -/
def u32add (a b : Nat) : Nat := (a + b) % U32

/-- Subtraction of `uint32_t` values (wraps at `2^32`). -/
def u32sub (a b : Nat) : Nat := (a % U32 + U32 - b % U32) % U32

/-- Conversion of a `uint32_t` value to a C `int` (32-bit, two's complement),
as performed by `return meta->size;` in `video_shm_consumer_read`. -/
def toInt32 (n : Nat) : Int :=
  if n % U32 < 2 ^ 31 then ((n % U32 : Nat) : Int)
  else ((n % U32 : Nat) : Int) - (U32 : Int)

/-! ## Data model from `video_shm.h` -/

/-- `video_frame_meta_t`: the frame metadata record. -/
structure video_frame_meta_t where
  timestamp_ms : Nat
  size : Nat
  sequence : Nat
  is_keyframe : Nat
  codec : Nat
  width : Nat
  height : Nat
  fps : Nat
deriving DecidableEq, Repr, Inhabited

/-- `video_frame_slot_t`: one ring-buffer slot (metadata plus payload bytes). -/
structure video_frame_slot_t where
  meta : video_frame_meta_t
  data : List Nat
deriving DecidableEq, Repr, Inhabited

/-- `video_shm_t`: the shared region (header fields plus the slot array). -/
structure video_shm_t where
  magic : Nat
  version : Nat
  write_idx : Nat
  read_idx : Nat
  frame_count : Nat
  dropped_frames : Nat
  active_readers : Nat
  frames : List video_frame_slot_t
deriving DecidableEq, Repr, Inhabited

/-- Producer handle state relevant to `video_shm_producer_write`: the mapped
region and the local `sequence` counter. -/
structure video_shm_producer_t where
  shm : video_shm_t
  sequence : Nat
deriving DecidableEq, Repr, Inhabited

/-- Consumer handle state relevant to `video_shm_consumer_read`: the mapped
region, the `last_sequence` snapshot and the `reader_id`. -/
structure video_shm_consumer_t where
  shm : video_shm_t
  last_sequence : Nat
  reader_id : Nat
deriving DecidableEq, Repr, Inhabited

/-! ## Declared byte layout (claim about `video_shm.h` declarations) -/

/-- Declared widths, in bytes, of the fields of `video_frame_meta_t`, in
declaration order: `timestamp_ms`, `size`, `sequence`, `is_keyframe`,
`codec`, `width`, `height`, `fps`, `reserved[5]`. -/
def video_frame_meta_field_sizes : List Nat := [8, 4, 4, 1, 1, 2, 2, 1, 5]

/-- Declared widths, in bytes, of the scalar header fields of `video_shm_t`,
in declaration order: `magic`, `version`, `write_idx`, `read_idx`,
`frame_count`, `dropped_frames`, `active_readers`, `reserved[9]`. -/
def video_shm_header_field_sizes : List Nat := [4, 4, 4, 4, 4, 4, 4, 9 * 4]

/-- Sum of the declared field widths of `video_frame_meta_t`. -/
def metaDeclaredBytes : Nat := video_frame_meta_field_sizes.sum

/-- Sum of the declared scalar field widths of the `video_shm_t` header. -/
def headerDeclaredBytes : Nat := video_shm_header_field_sizes.sum

/-- Round `n` up to a multiple of the alignment `a` (compiler tail padding). -/
def alignUp (n a : Nat) : Nat := (n + a - 1) / a * a

/-- `sizeof(video_frame_meta_t)`: the struct contains a `uint64_t`, so the
compiler pads the declared bytes up to an 8-byte multiple. -/
def sizeof_video_frame_meta_t : Nat := alignUp metaDeclaredBytes 8

/-- `sizeof(video_frame_slot_t)`. -/
def sizeof_video_frame_slot_t : Nat :=
  sizeof_video_frame_meta_t + VIDEO_SHM_MAX_FRAME_SIZE

/-- `sizeof(video_shm_t)`. -/
def sizeof_video_shm_t : Nat :=
  headerDeclaredBytes + VIDEO_SHM_RING_SIZE * sizeof_video_frame_slot_t

/-! ## Producer engine (`video_shm.c`) -/

/-- Modelled `memcpy(dst, src, n)` into a byte array: the first `n` bytes
come from `src`, the tail of `dst` beyond `n` is unchanged. -/
def memcpyBytes (dst src : List Nat) (n : Nat) : List Nat :=
  src.take n ++ dst.drop n

/-- Observable steps taken by `video_shm_producer_write`, in program order. -/
inductive WriteEvent where
  | dropInc
  | copyMeta (idx : Nat)
  | setSequence (v : Nat)
  | setSize (v : Nat)
  | fillTimestamp (substituted : Bool)
  | copyPayload (n : Nat)
  | advWriteIdx
  | advFrameCount
  | semPostWrite
  | semPostRead
deriving DecidableEq, Repr

/-- `video_shm_producer_write` (video_shm.c:116-161).  Returns the C `int`
result, the producer state after the call, and the trace of observable
steps in program order. -/
def video_shm_producer_write (producer : video_shm_producer_t)
    (argsValid : Bool) (data : List Nat) (size : Nat)
    (meta : video_frame_meta_t) (gateAcquired : Bool) (now_ms : Nat) :
    Int × video_shm_producer_t × List WriteEvent :=
  if argsValid = false then
    (-1, producer, [])
  else if VIDEO_SHM_MAX_FRAME_SIZE < size then
    (-1, producer, [])
  else if gateAcquired = false then
    (0, { producer with shm := { producer.shm with
            dropped_frames := u32add producer.shm.dropped_frames 1 } },
     [WriteEvent.dropInc])
  else
    let idx := producer.shm.write_idx % VIDEO_SHM_RING_SIZE
    let slot0 := producer.shm.frames.getD idx default
    let meta1 := { meta with sequence := producer.sequence, size := size }
    let meta2 := if meta1.timestamp_ms = 0 then
        { meta1 with timestamp_ms := now_ms } else meta1
    let slot1 : video_frame_slot_t :=
      { meta := meta2, data := memcpyBytes slot0.data data size }
    (0,
     { shm := { producer.shm with
          frames := producer.shm.frames.set idx slot1,
          write_idx := u32add producer.shm.write_idx 1,
          frame_count := u32add producer.shm.frame_count 1 },
       sequence := u32add producer.sequence 1 },
     [WriteEvent.copyMeta idx, WriteEvent.setSequence producer.sequence,
      WriteEvent.setSize size,
      WriteEvent.fillTimestamp (meta.timestamp_ms == 0),
      WriteEvent.copyPayload size, WriteEvent.advWriteIdx,
      WriteEvent.advFrameCount, WriteEvent.semPostWrite,
      WriteEvent.semPostRead])

/-- `video_shm_producer_init_channel` (video_shm.c:31-109), successful path:
the handle is zeroed (so `sequence = 0`), the freshly created region is
zeroed by `memset`, then `magic` and `version` are installed. -/
def video_shm_producer_init_channel : video_shm_producer_t :=
  { shm := { magic := VIDEO_SHM_MAGIC, version := VIDEO_SHM_VERSION,
             write_idx := 0, read_idx := 0, frame_count := 0,
             dropped_frames := 0, active_readers := 0,
             frames := List.replicate VIDEO_SHM_RING_SIZE
               { meta := { timestamp_ms := 0, size := 0, sequence := 0,
                           is_keyframe := 0, codec := 0, width := 0,
                           height := 0, fps := 0 },
                 data := List.replicate VIDEO_SHM_MAX_FRAME_SIZE 0 } },
    sequence := 0 }

/-! ## Consumer engine (`video_shm.c`) -/

/-- Result of `video_shm_consumer_read`: the C `int` return value, the
consumer state after the call, the metadata written to `*meta` (if any),
the length argument the code passes to `memcpy` for the payload, the
payload bytes actually available at that copy, and the computed missed
count. -/
structure ConsumerReadResult where
  ret : Int
  consumer : video_shm_consumer_t
  metaOut : Option video_frame_meta_t
  copyLen : Nat
  dataOut : List Nat
  missed : Nat
deriving DecidableEq, Repr

/-- `video_shm_consumer_read` (video_shm.c:282-312). -/
def video_shm_consumer_read (consumer : video_shm_consumer_t)
    (argsValid : Bool) : ConsumerReadResult :=
  if argsValid = false then
    { ret := -1, consumer := consumer, metaOut := none,
      copyLen := 0, dataOut := [], missed := 0 }
  else
    let current_count := consumer.shm.frame_count
    if current_count = consumer.last_sequence then
      { ret := 0, consumer := consumer, metaOut := none,
        copyLen := 0, dataOut := [], missed := 0 }
    else
      let idx := u32sub consumer.shm.write_idx 1 % VIDEO_SHM_RING_SIZE
      let slot := consumer.shm.frames.getD idx default
      let copyLen := slot.meta.size
      { ret := toInt32 slot.meta.size,
        consumer := { consumer with last_sequence := current_count },
        metaOut := some slot.meta,
        copyLen := copyLen,
        dataOut := slot.data.take copyLen,
        missed := u32sub (u32sub current_count consumer.last_sequence) 1 }

/-- `video_shm_consumer_init_channel` (video_shm.c:195-275), from the point
where the region is mapped: validate `magic` then `version`; on success set
`last_sequence` from the current `frame_count`, record the `reader_id`, and
atomically increment `active_readers`.  Returns the C `int` result, the
region after the call, and the initialized consumer handle (if any). -/
def video_shm_consumer_init_channel (shm : video_shm_t) (pid : Nat) :
    Int × video_shm_t × Option video_shm_consumer_t :=
  if shm.magic ≠ VIDEO_SHM_MAGIC then
    (-1, shm, none)
  else if shm.version ≠ VIDEO_SHM_VERSION then
    (-1, shm, none)
  else
    let shm1 := { shm with active_readers := u32add shm.active_readers 1 }
    (0, shm1,
     some { shm := shm1, last_sequence := shm.frame_count,
            reader_id := pid })

/-- `video_shm_consumer_stats` (video_shm.c:354-378), output values for a
valid handle. -/
def video_shm_consumer_stats (c : video_shm_consumer_t) : Nat × Nat × Nat :=
  (c.shm.frame_count, c.shm.dropped_frames,
   if c.last_sequence < c.shm.frame_count then
     c.shm.frame_count - c.last_sequence else 0)

/-! ## Teardown (`video_shm_producer_destroy` / `video_shm_consumer_destroy`)

The destroy functions only inspect the pointer-level fields of the handle,
so they are modelled on a pointer-level view of the handle: addresses and
file descriptors are integers.  On the target libc, `NULL = 0`,
`MAP_FAILED = (void*)-1` and `SEM_FAILED = (sem_t*)0`. -/

def NULL_PTR : Int := 0

def MAP_FAILED : Int := -1

def SEM_FAILED : Int := 0

/-- Pointer-level view of a producer handle (the bytes of the struct that
`video_shm_producer_destroy` inspects). -/
structure video_shm_producer_handle_t where
  shm_fd : Int
  shm_ptr : Int
  sem_write_ptr : Int
  sem_read_ptr : Int
  sequence : Nat
  channel_id : Int
  shm_name : String
  sem_write_name : String
  sem_read_name : String
deriving DecidableEq, Repr

/-- A producer handle whose bytes are all zero. -/
def zeroedProducerHandle : video_shm_producer_handle_t :=
  { shm_fd := 0, shm_ptr := 0, sem_write_ptr := 0, sem_read_ptr := 0,
    sequence := 0, channel_id := 0, shm_name := "",
    sem_write_name := "", sem_read_name := "" }

/-- Pointer-level view of a consumer handle (the bytes of the struct that
`video_shm_consumer_destroy` inspects). -/
structure video_shm_consumer_handle_t where
  shm_fd : Int
  shm_ptr : Int
  sem_write_ptr : Int
  sem_read_ptr : Int
  last_sequence : Nat
  reader_id : Nat
  channel_id : Int
deriving DecidableEq, Repr

/-- A consumer handle whose bytes are all zero. -/
def zeroedConsumerHandle : video_shm_consumer_handle_t :=
  { shm_fd := 0, shm_ptr := 0, sem_write_ptr := 0, sem_read_ptr := 0,
    last_sequence := 0, reader_id := 0, channel_id := 0 }

/-- Resource operations a destroy call can perform, in program order. -/
inductive ResOp where
  | atomicSubReaders
  | semClose (name : String)
  | semUnlink (name : String)
  | munmapCall (addr : Int)
  | closeCall (fd : Int)
  | shmUnlink (name : String)
deriving DecidableEq, Repr

/-- `video_shm_producer_destroy` (video_shm.c:163-191) on a non-null handle:
the list of resource operations performed, and the handle afterwards
(`memset` to zero). -/
def video_shm_producer_destroy (p : video_shm_producer_handle_t) :
    List ResOp × video_shm_producer_handle_t :=
  ((if p.sem_read_ptr ≠ SEM_FAILED then
      [ResOp.semClose p.sem_read_name, ResOp.semUnlink p.sem_read_name]
    else []) ++
   (if p.sem_write_ptr ≠ SEM_FAILED then
      [ResOp.semClose p.sem_write_name, ResOp.semUnlink p.sem_write_name]
    else []) ++
   (if p.shm_ptr ≠ MAP_FAILED then [ResOp.munmapCall p.shm_ptr] else []) ++
   (if 0 ≤ p.shm_fd then
      [ResOp.closeCall p.shm_fd, ResOp.shmUnlink p.shm_name]
    else []),
   zeroedProducerHandle)

/-- `video_shm_consumer_destroy` (video_shm.c:380-406) on a non-null handle:
the list of resource operations performed, and the handle afterwards
(`memset` to zero). -/
def video_shm_consumer_destroy (c : video_shm_consumer_handle_t) :
    List ResOp × video_shm_consumer_handle_t :=
  ((if c.shm_ptr ≠ NULL_PTR then [ResOp.atomicSubReaders] else []) ++
   (if c.sem_read_ptr ≠ SEM_FAILED then [ResOp.semClose "sem_read"] else []) ++
   (if c.sem_write_ptr ≠ SEM_FAILED then [ResOp.semClose "sem_write"] else []) ++
   (if c.shm_ptr ≠ MAP_FAILED then [ResOp.munmapCall c.shm_ptr] else []) ++
   (if 0 ≤ c.shm_fd then [ResOp.closeCall c.shm_fd] else []),
   zeroedConsumerHandle)

/-! ## Iterated publishing (for the sequence/frame_count invariant) -/

/-- Arguments of one `video_shm_producer_write` call. -/
structure WriteCall where
  argsValid : Bool
  data : List Nat
  size : Nat
  meta : video_frame_meta_t
  gateAcquired : Bool
  now_ms : Nat

/-- Run a list of `video_shm_producer_write` calls from a producer state. -/
def runWrites : video_shm_producer_t → List WriteCall → video_shm_producer_t
  | p, [] => p
  | p, c :: cs =>
      runWrites (video_shm_producer_write p c.argsValid c.data c.size
        c.meta c.gateAcquired c.now_ms).2.1 cs

/-- Whether a call takes the successful publish path: valid arguments,
admitted size, write-gate acquired. -/
def isPublished (c : WriteCall) : Bool :=
  c.argsValid && decide (c.size ≤ VIDEO_SHM_MAX_FRAME_SIZE) && c.gateAcquired

/-- Number of calls in the list that take the successful publish path. -/
def publishedCount (cs : List WriteCall) : Nat :=
  (cs.filter isPublished).length

/-! ## Concrete instances used in closed-form checks -/

/-- A concrete metadata record (scenario S1 of the design). -/
def metaW : video_frame_meta_t :=
  { timestamp_ms := 0, size := 0, sequence := 0, is_keyframe := 1,
    codec := 0, width := 1280, height := 720, fps := 30 }

/-- A freshly initialized region header with an empty modelled slot list. -/
def shmW : video_shm_t :=
  { magic := VIDEO_SHM_MAGIC, version := VIDEO_SHM_VERSION, write_idx := 0,
    read_idx := 0, frame_count := 0, dropped_frames := 0,
    active_readers := 0, frames := [] }

/-- A concrete producer state over `shmW`. -/
def producerW : video_shm_producer_t := { shm := shmW, sequence := 0 }

/-- A consumer that has already seen every published frame. -/
def consumerNoFrame : video_shm_consumer_t :=
  { shm := { shmW with frame_count := 4 }, last_sequence := 4,
    reader_id := 1 }

/-- A concrete well-formed slot with a 2-byte payload. -/
def slotR : video_frame_slot_t :=
  { meta := { timestamp_ms := 9, size := 2, sequence := 2, is_keyframe := 0,
              codec := 0, width := 1280, height := 720, fps := 30 },
    data := [10, 20, 30] }

/-- A consumer with one unseen frame available in slot 0. -/
def consumerNewFrame : video_shm_consumer_t :=
  { shm := { shmW with write_idx := 1, frame_count := 3, frames := [slotR] },
    last_sequence := 1, reader_id := 2 }

/-- A consumer whose latest slot carries a `size` field one byte above
`VIDEO_SHM_MAX_FRAME_SIZE` (e.g. after a torn read during wrap). -/
def oversizedConsumer : video_shm_consumer_t :=
  { shm := { magic := VIDEO_SHM_MAGIC, version := VIDEO_SHM_VERSION,
             write_idx := 1, read_idx := 0, frame_count := 1,
             dropped_frames := 0, active_readers := 1,
             frames := [{ meta := { timestamp_ms := 1,
                                    size := VIDEO_SHM_MAX_FRAME_SIZE + 1,
                                    sequence := 0, is_keyframe := 1,
                                    codec := 0, width := 1920,
                                    height := 1080, fps := 30 },
                          data := [] }] },
    last_sequence := 0, reader_id := 7 }

/-- A region header carrying protocol version 2 (scenario S5). -/
def shmBad : video_shm_t := { shmW with version := 2 }

/-- A producer state whose modelled slot list has the full ring length. -/
def producerRing : video_shm_producer_t :=
  { shm := { shmW with frames := List.replicate VIDEO_SHM_RING_SIZE default },
    sequence := 0 }

/-- A concrete publish call that takes the successful path. -/
def callPub : WriteCall :=
  { argsValid := true, data := [1], size := 1, meta := metaW,
    gateAcquired := true, now_ms := 0 }

/-- A concrete publish call that is dropped at the write-gate. -/
def callDrop : WriteCall :=
  { argsValid := true, data := [1], size := 1, meta := metaW,
    gateAcquired := false, now_ms := 0 }

/-! ## Helper lemmas -/

/-- Evaluation of `toInt32` below `2^31`: no wrap to a negative value. -/
theorem toInt32_small (n : Nat) (h : n < 2 ^ 31) : toInt32 n = n := by
  unfold toInt32
  have hu : n % U32 = n := Nat.mod_eq_of_lt (lt_trans h (by norm_num [U32]))
  rw [hu, if_pos h]

/-- Reading back the element just stored by `List.set`. -/
theorem getD_set_self {α : Type} (l : List α) (i : Nat) (a d : α)
    (h : i < l.length) : (l.set i a).getD i d = a := by
  induction l generalizing i with
  | nil => simp at h
  | cons x xs ih =>
      cases i with
      | zero => rfl
      | succ j => simpa using ih j (by simpa using h)

/-- Full evaluation of `video_shm_producer_write` on the successful publish
path: the returned value, the new state and the event trace. -/
theorem publish_step_eq (p : video_shm_producer_t) (data : List Nat)
    (size : Nat) (meta : video_frame_meta_t) (now_ms : Nat)
    (hsize : size ≤ VIDEO_SHM_MAX_FRAME_SIZE) :
    video_shm_producer_write p true data size meta true now_ms =
      (0,
       { shm := { p.shm with
            frames := p.shm.frames.set (p.shm.write_idx % VIDEO_SHM_RING_SIZE)
              { meta := { meta with
                   sequence := p.sequence,
                   size := size,
                   timestamp_ms :=
                     if meta.timestamp_ms = 0 then now_ms
                     else meta.timestamp_ms },
                data := memcpyBytes
                  (p.shm.frames.getD (p.shm.write_idx % VIDEO_SHM_RING_SIZE)
                    default).data data size },
            write_idx := u32add p.shm.write_idx 1,
            frame_count := u32add p.shm.frame_count 1 },
         sequence := u32add p.sequence 1 },
       [WriteEvent.copyMeta (p.shm.write_idx % VIDEO_SHM_RING_SIZE),
        WriteEvent.setSequence p.sequence, WriteEvent.setSize size,
        WriteEvent.fillTimestamp (meta.timestamp_ms == 0),
        WriteEvent.copyPayload size, WriteEvent.advWriteIdx,
        WriteEvent.advFrameCount, WriteEvent.semPostWrite,
        WriteEvent.semPostRead]) := by
  unfold video_shm_producer_write
  rw [if_neg (by simp), if_neg (Nat.not_lt.mpr hsize), if_neg (by simp)]
  by_cases h : meta.timestamp_ms = 0 <;> simp [h]

/-- The local `sequence` counter and the shared `frame_count` are advanced
by exactly the calls that take the successful publish path. -/
theorem producer_write_counters (p : video_shm_producer_t) (c : WriteCall) :
    (video_shm_producer_write p c.argsValid c.data c.size c.meta
        c.gateAcquired c.now_ms).2.1.sequence =
      (if isPublished c then u32add p.sequence 1 else p.sequence) ∧
    (video_shm_producer_write p c.argsValid c.data c.size c.meta
        c.gateAcquired c.now_ms).2.1.shm.frame_count =
      (if isPublished c then u32add p.shm.frame_count 1
       else p.shm.frame_count) := by
  obtain ⟨v, d, s, m, g, n⟩ := c
  unfold video_shm_producer_write isPublished
  by_cases hs : s ≤ VIDEO_SHM_MAX_FRAME_SIZE
  · have hs' : ¬ (VIDEO_SHM_MAX_FRAME_SIZE < s) := Nat.not_lt.mpr hs
    cases v <;> cases g <;> simp [hs, hs']
  · have hs' : VIDEO_SHM_MAX_FRAME_SIZE < s := Nat.not_le.mp hs
    cases v <;> cases g <;> simp [hs, hs']

/-- Starting from any state where `sequence = frame_count`, running any list
of publish calls preserves the equality. -/
theorem runWrites_seq_eq_frame_count (cs : List WriteCall) :
    ∀ p : video_shm_producer_t, p.sequence = p.shm.frame_count →
      (runWrites p cs).sequence = (runWrites p cs).shm.frame_count := by
  induction cs with
  | nil => intro p h; exact h
  | cons c cs ih =>
      intro p h
      simp only [runWrites]
      apply ih
      obtain ⟨hseq, hcnt⟩ := producer_write_counters p c
      rw [hseq, hcnt, h]

/-- The local `sequence` counter counts exactly the successfully published
frames, modulo `2^32`. -/
theorem runWrites_seq_published (cs : List WriteCall) :
    ∀ p : video_shm_producer_t, p.sequence < U32 →
      (runWrites p cs).sequence = (p.sequence + publishedCount cs) % U32 := by
  induction cs with
  | nil =>
      intro p h
      simp [runWrites, publishedCount, Nat.mod_eq_of_lt h]
  | cons c cs ih =>
      intro p h
      simp only [runWrites]
      obtain ⟨hseq, _⟩ := producer_write_counters p c
      by_cases hc : isPublished c
      · have hlt : u32add p.sequence 1 < U32 :=
          Nat.mod_lt _ (by norm_num [U32])
        have := ih (video_shm_producer_write p c.argsValid c.data c.size
          c.meta c.gateAcquired c.now_ms).2.1 (by rw [hseq, if_pos hc]; exact hlt)
        rw [this, hseq, if_pos hc]
        unfold u32add
        rw [Nat.mod_add_mod]
        have hcount : publishedCount (c :: cs) = 1 + publishedCount cs := by
          simp [publishedCount, hc, Nat.add_comm]
        rw [hcount]
        ring_nf
      · have := ih (video_shm_producer_write p c.argsValid c.data c.size
          c.meta c.gateAcquired c.now_ms).2.1 (by rw [hseq, if_neg hc]; exact h)
        rw [this, hseq, if_neg hc]
        have hcount : publishedCount (c :: cs) = publishedCount cs := by
          simp [publishedCount, hc]
        rw [hcount]

/-! ## Claim theorems -/

/-- Claim C1: for every successful publish (write-gate acquired, valid
arguments), `video_shm_producer_write` performs exactly, and in this order,
on slot `write_idx % 30`: copy `meta_in` into the slot metadata, overwrite
`sequence` with the producer's local counter (post-incrementing it) and
`size` with the admitted length, substitute the monotonic milliseconds for
`timestamp_ms` iff the incoming `timestamp_ms` is zero, copy exactly `size`
payload bytes, then advance `write_idx` by 1, then `frame_count` by 1, then
release the write-gate, then post the read-signal exactly once. -/
theorem video_shm_producer_write_publish_steps
    (p : video_shm_producer_t) (data : List Nat) (size : Nat)
    (meta : video_frame_meta_t) (now_ms : Nat)
    (hsize : size ≤ VIDEO_SHM_MAX_FRAME_SIZE) :
    video_shm_producer_write p true data size meta true now_ms =
      (0,
       { shm := { p.shm with
            frames := p.shm.frames.set (p.shm.write_idx % VIDEO_SHM_RING_SIZE)
              { meta := { meta with
                   sequence := p.sequence,
                   size := size,
                   timestamp_ms :=
                     if meta.timestamp_ms = 0 then now_ms
                     else meta.timestamp_ms },
                data := memcpyBytes
                  (p.shm.frames.getD (p.shm.write_idx % VIDEO_SHM_RING_SIZE)
                    default).data data size },
            write_idx := u32add p.shm.write_idx 1,
            frame_count := u32add p.shm.frame_count 1 },
         sequence := u32add p.sequence 1 },
       [WriteEvent.copyMeta (p.shm.write_idx % VIDEO_SHM_RING_SIZE),
        WriteEvent.setSequence p.sequence, WriteEvent.setSize size,
        WriteEvent.fillTimestamp (meta.timestamp_ms == 0),
        WriteEvent.copyPayload size, WriteEvent.advWriteIdx,
        WriteEvent.advFrameCount, WriteEvent.semPostWrite,
        WriteEvent.semPostRead]) :=
  publish_step_eq p data size meta now_ms hsize

/-- Witness for C1 at a concrete publish of 2 bytes. -/
theorem video_shm_producer_write_publish_steps_witness :
    2 ≤ VIDEO_SHM_MAX_FRAME_SIZE ∧
    (video_shm_producer_write producerW true [222, 173] 2 metaW true 5).1 = 0 :=
  ⟨by decide,
   by rw [video_shm_producer_write_publish_steps producerW [222, 173] 2 metaW
        5 (by decide)]⟩

/-- Claim C2: a consumer poll with valid arguments returns NoFrame (0)
without any state change when the sampled `frame_count` equals
`last_sequence`; otherwise it reads the slot at `(write_idx - 1) mod 30`,
copies that slot's metadata and `meta.size` payload bytes, sets
`last_sequence` to the sampled count, returns the frame size, and computes
`sampled - old_last_seen - 1` as the missed-frame count. -/
theorem video_shm_consumer_read_poll_spec
    (c₁ c₂ : video_shm_consumer_t)
    (h₁ : c₁.shm.frame_count = c₁.last_sequence)
    (h₂ : c₂.shm.frame_count ≠ c₂.last_sequence)
    (h₃ : (c₂.shm.frames.getD (u32sub c₂.shm.write_idx 1 % VIDEO_SHM_RING_SIZE)
        default).meta.size < 2 ^ 31) :
    video_shm_consumer_read c₁ true =
      { ret := 0, consumer := c₁, metaOut := none, copyLen := 0,
        dataOut := [], missed := 0 } ∧
    video_shm_consumer_read c₂ true =
      { ret := ((c₂.shm.frames.getD
            (u32sub c₂.shm.write_idx 1 % VIDEO_SHM_RING_SIZE)
            default).meta.size : Int),
        consumer := { c₂ with last_sequence := c₂.shm.frame_count },
        metaOut := some (c₂.shm.frames.getD
            (u32sub c₂.shm.write_idx 1 % VIDEO_SHM_RING_SIZE) default).meta,
        copyLen := (c₂.shm.frames.getD
            (u32sub c₂.shm.write_idx 1 % VIDEO_SHM_RING_SIZE)
            default).meta.size,
        dataOut := (c₂.shm.frames.getD
            (u32sub c₂.shm.write_idx 1 % VIDEO_SHM_RING_SIZE)
            default).data.take
          (c₂.shm.frames.getD
            (u32sub c₂.shm.write_idx 1 % VIDEO_SHM_RING_SIZE)
            default).meta.size,
        missed := u32sub (u32sub c₂.shm.frame_count c₂.last_sequence) 1 } := by
  constructor
  · unfold video_shm_consumer_read
    rw [if_neg (by simp), if_pos h₁]
  · unfold video_shm_consumer_read
    rw [if_neg (by simp), if_neg h₂]
    simp only [toInt32_small _ h₃]

/-- Witness for C2: one consumer at the live edge, one with a pending
2-byte frame. -/
theorem video_shm_consumer_read_poll_spec_witness :
    consumerNoFrame.shm.frame_count = consumerNoFrame.last_sequence ∧
    consumerNewFrame.shm.frame_count ≠ consumerNewFrame.last_sequence ∧
    (video_shm_consumer_read consumerNoFrame true).ret = 0 ∧
    (video_shm_consumer_read consumerNewFrame true).ret = 2 ∧
    (video_shm_consumer_read consumerNewFrame true).dataOut = [10, 20] := by
  obtain ⟨hA, hB⟩ := video_shm_consumer_read_poll_spec consumerNoFrame
    consumerNewFrame (by decide) (by decide) (by decide)
  refine ⟨by decide, by decide, ?_, ?_, ?_⟩
  · rw [hA]
  · rw [hB]; decide
  · rw [hB]; decide

/-- Claim C3: a publish call with valid arguments whose non-blocking
write-gate acquire fails increments `dropped_frames` by exactly 1 and
returns 0 (success), leaving all other state unchanged; and
`dropped_frames` changes in no other situation (other `video_shm_producer_write`
branches, consumer reads and consumer init leave it unchanged). -/
theorem video_shm_producer_write_drop_spec
    (p : video_shm_producer_t) (data : List Nat) (size : Nat)
    (meta : video_frame_meta_t) (now_ms : Nat)
    (hsize : size ≤ VIDEO_SHM_MAX_FRAME_SIZE) :
    (video_shm_producer_write p true data size meta false now_ms =
      (0, { p with shm := { p.shm with
              dropped_frames := u32add p.shm.dropped_frames 1 } },
       [WriteEvent.dropInc])) ∧
    (∀ (q : video_shm_producer_t) (v : Bool) (d : List Nat) (s : Nat)
       (m : video_frame_meta_t) (g : Bool) (n : Nat),
       (video_shm_producer_write q v d s m g n).2.1.shm.dropped_frames =
         if v = true ∧ s ≤ VIDEO_SHM_MAX_FRAME_SIZE ∧ g = false then
           u32add q.shm.dropped_frames 1
         else q.shm.dropped_frames) ∧
    (∀ (c : video_shm_consumer_t) (a : Bool),
       (video_shm_consumer_read c a).consumer.shm = c.shm) ∧
    (∀ (shm : video_shm_t) (pid : Nat),
       (video_shm_consumer_init_channel shm pid).2.1.dropped_frames =
         shm.dropped_frames) := by
  refine ⟨?_, ?_, ?_, ?_⟩
  · unfold video_shm_producer_write
    rw [if_neg (by simp), if_neg (Nat.not_lt.mpr hsize), if_pos rfl]
  · intro q v d s m g n
    unfold video_shm_producer_write
    by_cases hq : s ≤ VIDEO_SHM_MAX_FRAME_SIZE
    · have hq' : ¬ (VIDEO_SHM_MAX_FRAME_SIZE < s) := Nat.not_lt.mpr hq
      cases v <;> cases g <;> simp [hq, hq']
    · have hq' : VIDEO_SHM_MAX_FRAME_SIZE < s := Nat.not_le.mp hq
      cases v <;> cases g <;> simp [hq, hq']
  · intro c a
    unfold video_shm_consumer_read
    cases a
    · rfl
    · by_cases hc : c.shm.frame_count = c.last_sequence <;> simp [hc]
  · intro shm pid
    unfold video_shm_consumer_init_channel
    by_cases hm : shm.magic ≠ VIDEO_SHM_MAGIC
    · simp [hm]
    · by_cases hv : shm.version ≠ VIDEO_SHM_VERSION <;> simp [hm, hv]

/-- Witness for C3 at a concrete dropped publish. -/
theorem video_shm_producer_write_drop_spec_witness :
    1 ≤ VIDEO_SHM_MAX_FRAME_SIZE ∧
    (video_shm_producer_write producerW true [7] 1 metaW false 0).2.1.shm.dropped_frames = 1 ∧
    (video_shm_producer_write producerW true [7] 1 metaW false 0).1 = 0 := by
  obtain ⟨h1, _⟩ := video_shm_producer_write_drop_spec producerW [7] 1 metaW 0
    (by decide)
  refine ⟨by decide, ?_, ?_⟩
  · rw [h1]; decide
  · rw [h1]

/-- Claim C4: a publish call with a null pointer among its arguments or
with `size > VIDEO_SHM_MAX_FRAME_SIZE` returns -1 and leaves the producer
state (region counters and every slot) completely unchanged. -/
theorem video_shm_producer_write_invalid_spec
    (p : video_shm_producer_t) (v : Bool) (data : List Nat) (size : Nat)
    (meta : video_frame_meta_t) (g : Bool) (now_ms : Nat)
    (h : v = false ∨ VIDEO_SHM_MAX_FRAME_SIZE < size) :
    video_shm_producer_write p v data size meta g now_ms = (-1, p, []) := by
  unfold video_shm_producer_write
  rcases h with h | h
  · rw [if_pos h]
  · cases v
    · rw [if_pos rfl]
    · rw [if_neg (by simp), if_pos h]

/-- Witness for C4: a null-argument call and an oversized call. -/
theorem video_shm_producer_write_invalid_spec_witness :
    ((false = false ∨ VIDEO_SHM_MAX_FRAME_SIZE < 0) ∧
      video_shm_producer_write producerW false [] 0 metaW true 0 =
        (-1, producerW, [])) ∧
    ((true = false ∨
        VIDEO_SHM_MAX_FRAME_SIZE < VIDEO_SHM_MAX_FRAME_SIZE + 1) ∧
      video_shm_producer_write producerW true []
          (VIDEO_SHM_MAX_FRAME_SIZE + 1) metaW true 0 = (-1, producerW, [])) :=
  ⟨⟨Or.inl rfl,
    video_shm_producer_write_invalid_spec producerW false [] 0 metaW true 0
      (Or.inl rfl)⟩,
   ⟨Or.inr (by decide),
    video_shm_producer_write_invalid_spec producerW true []
      (VIDEO_SHM_MAX_FRAME_SIZE + 1) metaW true 0 (Or.inr (by decide))⟩⟩

/-- Claim C5 (code bug): `video_shm_consumer_read` passes the slot's
`meta.size` to `memcpy` without clamping it to `VIDEO_SHM_MAX_FRAME_SIZE`:
on a slot whose `size` field is `VIDEO_SHM_MAX_FRAME_SIZE + 1` the copy
length is `VIDEO_SHM_MAX_FRAME_SIZE + 1`, not the clamped value. -/
theorem video_shm_consumer_read_no_clamp :
    (video_shm_consumer_read oversizedConsumer true).copyLen =
      VIDEO_SHM_MAX_FRAME_SIZE + 1 ∧
    VIDEO_SHM_MAX_FRAME_SIZE <
      (video_shm_consumer_read oversizedConsumer true).copyLen ∧
    (video_shm_consumer_read oversizedConsumer true).copyLen ≠
      min (video_shm_consumer_read oversizedConsumer true).copyLen
        VIDEO_SHM_MAX_FRAME_SIZE := by decide

/-- Claim C6 counterexample: a published call and a dropped call return the
same value 0, so the caller cannot tell from the return value alone whether
the frame was published or dropped. -/
theorem video_shm_producer_write_published_dropped_same_return :
    (video_shm_producer_write producerW true [1] 1 metaW true 0).1 = 0 ∧
    (video_shm_producer_write producerW true [1] 1 metaW false 0).1 = 0 ∧
    (video_shm_producer_write producerW true [1] 1 metaW true 0).1 =
      (video_shm_producer_write producerW true [1] 1 metaW false 0).1 ∧
    (video_shm_producer_write producerW true [1] 1 metaW true 0).2.1.shm.frame_count =
      u32add producerW.shm.frame_count 1 ∧
    (video_shm_producer_write producerW true [1] 1 metaW false 0).2.1.shm.dropped_frames =
      u32add producerW.shm.dropped_frames 1 := by decide

/-- Claim C6 (amended): the return value of publish distinguishes exactly
two outcomes — error (-1) for invalid arguments, success (0) for both a
published and a dropped frame. -/
theorem video_shm_producer_write_return_two_outcomes
    (p : video_shm_producer_t) (v : Bool) (data : List Nat) (size : Nat)
    (meta : video_frame_meta_t) (g : Bool) (now_ms : Nat) :
    (video_shm_producer_write p v data size meta g now_ms).1 =
      if v = true ∧ size ≤ VIDEO_SHM_MAX_FRAME_SIZE then 0 else -1 := by
  unfold video_shm_producer_write
  by_cases hs : size ≤ VIDEO_SHM_MAX_FRAME_SIZE
  · have hs' : ¬ (VIDEO_SHM_MAX_FRAME_SIZE < size) := Nat.not_lt.mpr hs
    cases v <;> cases g <;> simp [hs, hs']
  · have hs' : VIDEO_SHM_MAX_FRAME_SIZE < size := Nat.not_le.mp hs
    cases v <;> cases g <;> simp [hs, hs']

/-- Claim C7: consumer init fails (returning -1, leaving `active_readers`
unchanged) when the header's magic or version does not match; on success it
increments `active_readers` by exactly 1 and initializes `last_sequence`
to the current `frame_count`, so a poll immediately after attach returns
NoFrame with unchanged consumer state. -/
theorem video_shm_consumer_init_channel_spec
    (bad good : video_shm_t) (bpid pid : Nat)
    (hbad : bad.magic ≠ VIDEO_SHM_MAGIC ∨ bad.version ≠ VIDEO_SHM_VERSION)
    (hm : good.magic = VIDEO_SHM_MAGIC)
    (hv : good.version = VIDEO_SHM_VERSION) :
    video_shm_consumer_init_channel bad bpid = (-1, bad, none) ∧
    video_shm_consumer_init_channel good pid =
      (0, { good with active_readers := u32add good.active_readers 1 },
       some { shm := { good with
                active_readers := u32add good.active_readers 1 },
              last_sequence := good.frame_count, reader_id := pid }) ∧
    video_shm_consumer_read
      { shm := { good with active_readers := u32add good.active_readers 1 },
        last_sequence := good.frame_count, reader_id := pid } true =
      { ret := 0,
        consumer := { shm := { good with
                        active_readers := u32add good.active_readers 1 },
                      last_sequence := good.frame_count, reader_id := pid },
        metaOut := none, copyLen := 0, dataOut := [], missed := 0 } := by
  refine ⟨?_, ?_, ?_⟩
  · unfold video_shm_consumer_init_channel
    rcases hbad with h | h
    · rw [if_pos h]
    · by_cases hmm : bad.magic ≠ VIDEO_SHM_MAGIC
      · rw [if_pos hmm]
      · rw [if_neg hmm, if_pos h]
  · unfold video_shm_consumer_init_channel
    rw [if_neg (by simp [hm]), if_neg (by simp [hv])]
  · unfold video_shm_consumer_read
    rw [if_neg (by simp), if_pos rfl]

/-- Witness for C7: a version-2 header is rejected, a fresh header is
accepted. -/
theorem video_shm_consumer_init_channel_spec_witness :
    (shmBad.magic ≠ VIDEO_SHM_MAGIC ∨ shmBad.version ≠ VIDEO_SHM_VERSION) ∧
    shmW.magic = VIDEO_SHM_MAGIC ∧ shmW.version = VIDEO_SHM_VERSION ∧
    video_shm_consumer_init_channel shmBad 9 = (-1, shmBad, none) ∧
    (video_shm_consumer_init_channel shmW 8).2.1.active_readers = 1 := by
  obtain ⟨h1, h2, _⟩ := video_shm_consumer_init_channel_spec shmBad shmW 9 8
    (Or.inr (by decide)) (by decide) (by decide)
  refine ⟨Or.inr (by decide), by decide, by decide, h1, ?_⟩
  rw [h2]; decide

/-- Claim C8 (code bug): destroy on an all-zero handle is not a no-op: the
zeroed file-descriptor field is 0 (which passes the `fd >= 0` guard) and
the zeroed mapping pointer is `NULL` (which differs from `MAP_FAILED`), so
the producer destroy performs `munmap(NULL)`, `close(0)` and
`shm_unlink("")`, and the consumer destroy performs `munmap(NULL)` and
`close(0)`. -/
theorem video_shm_destroy_zeroed_performs_ops :
    video_shm_producer_destroy zeroedProducerHandle =
      ([ResOp.munmapCall 0, ResOp.closeCall 0, ResOp.shmUnlink ""],
       zeroedProducerHandle) ∧
    video_shm_consumer_destroy zeroedConsumerHandle =
      ([ResOp.munmapCall 0, ResOp.closeCall 0], zeroedConsumerHandle) ∧
    (video_shm_producer_destroy zeroedProducerHandle).1 ≠ [] ∧
    (video_shm_consumer_destroy zeroedConsumerHandle).1 ≠ [] := by decide

/-- Claim C9 (code bug): the declared field widths of the header sum to 64
bytes, but the declared field widths of `video_frame_meta_t` (including its
explicit `reserved[5]` padding) sum to 28 bytes, not 32: `sizeof` reaches
32 only through compiler tail padding to the 8-byte alignment, which the
design forbids relying on; with that padding the region size matches
`64 + 30 * (32 + MAX_FRAME_SIZE)`. -/
theorem video_shm_layout_declared_sizes :
    headerDeclaredBytes = 64 ∧
    metaDeclaredBytes = 28 ∧
    metaDeclaredBytes ≠ 32 ∧
    sizeof_video_frame_meta_t = 32 ∧
    sizeof_video_shm_t =
      64 + VIDEO_SHM_RING_SIZE * (32 + VIDEO_SHM_MAX_FRAME_SIZE) := by decide

/-- Claim C10: producer init zeroes both the local `sequence` counter and
the shared `frame_count`; every publish call advances the local counter
exactly when it advances `frame_count` (drops and rejections advance
neither), so after any sequence of calls the two counters are equal, the
counter equals the number of successfully published frames modulo `2^32`,
and each successfully published frame is stamped with the pre-increment
counter value (so the Nth published frame carries sequence N-1). -/
theorem video_shm_producer_sequence_invariant
    (p : video_shm_producer_t) (cs tail : List WriteCall)
    (data : List Nat) (size : Nat) (meta : video_frame_meta_t) (now_ms : Nat)
    (hinv : p.sequence = p.shm.frame_count)
    (hsize : size ≤ VIDEO_SHM_MAX_FRAME_SIZE)
    (hlen : p.shm.frames.length = VIDEO_SHM_RING_SIZE) :
    (video_shm_producer_init_channel.sequence = 0 ∧
     video_shm_producer_init_channel.shm.frame_count = 0) ∧
    ((runWrites p cs).sequence = (runWrites p cs).shm.frame_count) ∧
    ((runWrites video_shm_producer_init_channel tail).sequence =
       publishedCount tail % U32 ∧
     (runWrites video_shm_producer_init_channel tail).shm.frame_count =
       publishedCount tail % U32) ∧
    (((video_shm_producer_write p true data size meta true
          now_ms).2.1.shm.frames.getD
        (p.shm.write_idx % VIDEO_SHM_RING_SIZE) default).meta.sequence =
      p.sequence) ∧
    ((video_shm_producer_write p true data size meta true now_ms).2.1.sequence =
       u32add p.sequence 1 ∧
     (video_shm_producer_write p true data size meta true
        now_ms).2.1.shm.frame_count = u32add p.shm.frame_count 1) ∧
    ((video_shm_producer_write p true data size meta false now_ms).2.1.sequence =
       p.sequence ∧
     (video_shm_producer_write p true data size meta false
        now_ms).2.1.shm.frame_count = p.shm.frame_count) := by
  have hseq0 : video_shm_producer_init_channel.sequence = 0 := rfl
  have hcnt0 : video_shm_producer_init_channel.shm.frame_count = 0 := rfl
  have htail : (runWrites video_shm_producer_init_channel tail).sequence =
      publishedCount tail % U32 := by
    have := runWrites_seq_published tail video_shm_producer_init_channel
      (by rw [hseq0]; norm_num [U32])
    rw [this, hseq0, Nat.zero_add]
  have htail2 : (runWrites video_shm_producer_init_channel tail).shm.frame_count =
      publishedCount tail % U32 := by
    rw [← runWrites_seq_eq_frame_count tail video_shm_producer_init_channel
      (by rw [hseq0, hcnt0]), htail]
  have hpub := publish_step_eq p data size meta now_ms hsize
  have hidx : p.shm.write_idx % VIDEO_SHM_RING_SIZE < p.shm.frames.length := by
    rw [hlen]
    exact Nat.mod_lt _ (by norm_num [VIDEO_SHM_RING_SIZE])
  have hgetd : ((video_shm_producer_write p true data size meta true
      now_ms).2.1.shm.frames.getD
      (p.shm.write_idx % VIDEO_SHM_RING_SIZE) default).meta.sequence =
      p.sequence := by
    rw [hpub]
    dsimp only
    rw [getD_set_self _ _ _ _ hidx]
  have hcnt := producer_write_counters p
    ⟨true, data, size, meta, true, now_ms⟩
  have hdrop := producer_write_counters p
    ⟨true, data, size, meta, false, now_ms⟩
  have hpubTrue : isPublished ⟨true, data, size, meta, true, now_ms⟩ = true := by
    simp [isPublished, hsize]
  have hpubFalse : isPublished ⟨true, data, size, meta, false, now_ms⟩ = false := by
    simp [isPublished]
  refine ⟨⟨hseq0, hcnt0⟩,
    runWrites_seq_eq_frame_count cs p hinv,
    ⟨htail, htail2⟩, hgetd, ⟨?_, ?_⟩, ⟨?_, ?_⟩⟩
  · rw [hcnt.1, hpubTrue]; rfl
  · rw [hcnt.2, hpubTrue]; rfl
  · rw [hdrop.1, hpubFalse]; rfl
  · rw [hdrop.2, hpubFalse]; rfl

/-- Witness for C10 on a full 30-slot ring with one published and one
dropped call. -/
theorem video_shm_producer_sequence_invariant_witness :
    producerRing.sequence = producerRing.shm.frame_count ∧
    (1 : Nat) ≤ VIDEO_SHM_MAX_FRAME_SIZE ∧
    producerRing.shm.frames.length = VIDEO_SHM_RING_SIZE ∧
    (runWrites producerRing [callPub, callDrop]).sequence =
      (runWrites producerRing [callPub, callDrop]).shm.frame_count :=
  ⟨rfl, by decide, by decide,
   (video_shm_producer_sequence_invariant producerRing [callPub, callDrop]
      [callPub] [1] 1 metaW 0 rfl (by decide) (by decide)).2.1⟩

end VideoShm
